import Mathlib

/-
Shallow embedding of the oslash Reader and State monads
(src/oslash/reader.py and src/oslash/state.py).

Python exceptions are modelled with an explicit Except layer: every wrapped
function has type input to Res output, where Res is Except Exc.  The
exception universe distinguishes TypeError (the only exception caught by the
currying fallback in Reader.map and Reader.apply) from every other exception.
Wrapped functions are pure, as the data model requires, so re-evaluating one
on the same input yields the same outcome; the definitions below nevertheless
spell out every evaluation the Python code performs, including the second
evaluation of self(x) or g(x) inside the except branch of the fallback.
-/

/-- The exceptions a wrapped function may raise.  TypeError is singled out
because the map and apply combinators catch exactly that class; every other
exception is collapsed into otherError, which the combinators never catch. -/
inductive Exc where
  | typeError
  | otherError
deriving DecidableEq, Repr

/-- Outcome of evaluating a Python expression: a value, or a raised exception. -/
abbrev Res (α : Type) : Type := Except Exc α

/-- Result of the composed function built by Reader.map or Reader.apply: either
an ordinary value, or the object produced by the currying fallback.  The
fallback result `functools.partial(fn, v)` is modelled by recording the
captured intermediate argument v (the function part is determined by the
combinator's arguments). -/
inductive AppResult (β γ : Type) where
  | value : γ → AppResult β γ
  | partApp : β → AppResult β γ
deriving DecidableEq

/-- The Reader monad: wraps a function from the environment to a value
(reader.py, class Reader, attribute fn). -/
structure Reader (ε β : Type) where
  fn : ε → Res β

/-- Reader.unit: ignore the environment and produce the given value
(reader.py lines 29-36). -/
def Reader.unit {ε β : Type} (value : β) : Reader ε β :=
  ⟨fun _ => Except.ok value⟩

/-- Reader.pure: alias of unit (reader.py lines 38-40). -/
def Reader.pure {ε β : Type} (value : β) : Reader ε β :=
  Reader.unit value

/-- The composed function built by Reader.map (reader.py lines 42-55):

    def _compose(x):
        try:
            ret = fn(self(x))
        except TypeError:
            ret = partial(fn, self(x))
        return ret

The try block covers the evaluation of self(x) as well as the application of
fn; the except branch evaluates self(x) a second time.  An exception other
than TypeError propagates; an exception raised by the second evaluation of
self(x) propagates out of the except handler. -/
def mapCompose {ε β γ : Type} (selfFn : ε → Res β) (fn : β → Res γ)
    (x : ε) : Res (AppResult β γ) :=
  match selfFn x with
  | Except.error e =>
    if e = Exc.typeError then
      match selfFn x with
      | Except.error e2 => Except.error e2
      | Except.ok v => Except.ok (AppResult.partApp v)
    else Except.error e
  | Except.ok v =>
    match fn v with
    | Except.ok w => Except.ok (AppResult.value w)
    | Except.error e =>
      if e = Exc.typeError then
        match selfFn x with
        | Except.error e2 => Except.error e2
        | Except.ok v2 => Except.ok (AppResult.partApp v2)
      else Except.error e

/-- Reader.map: wrap the composed function (reader.py lines 42-55). -/
def Reader.map {ε β γ : Type} (self : Reader ε β) (fn : β → Res γ) :
    Reader ε (AppResult β γ) :=
  ⟨mapCompose self.fn fn⟩

/-- Reader.bind (reader.py lines 57-64):
Reader(lambda x: fn(self(x))(x)).  Calling a Reader object with one argument
invokes its wrapped function on that argument, so the composed function runs
self, feeds the result to the binder, and runs the resulting Reader on the
same environment.  An exception raised by self(x) propagates. -/
def Reader.bind {ε α β : Type} (self : Reader ε α) (fn : α → Reader ε β) :
    Reader ε β :=
  ⟨fun x =>
    match self.fn x with
    | Except.error e => Except.error e
    | Except.ok v => (fn v).fn x⟩

/-- The composed function built by Reader.apply (reader.py lines 66-87):

    g = something.run()
    def _compose(x):
        f = self(x)
        try:
            ret = f(g(x))
        except TypeError:
            ret = partial(f, g(x))
        return ret

f = self(x) is evaluated outside the try, so any exception it raises
propagates directly.  The try block covers the evaluation of g(x) and the
application f(g(x)); the except branch evaluates g(x) a second time. -/
def applyCompose {ε β γ : Type} (selfFn : ε → Res (β → Res γ))
    (g : ε → Res β) (x : ε) : Res (AppResult β γ) :=
  match selfFn x with
  | Except.error e => Except.error e
  | Except.ok f =>
    match g x with
    | Except.error e =>
      if e = Exc.typeError then
        match g x with
        | Except.error e2 => Except.error e2
        | Except.ok v => Except.ok (AppResult.partApp v)
      else Except.error e
    | Except.ok v =>
      match f v with
      | Except.ok w => Except.ok (AppResult.value w)
      | Except.error e =>
        if e = Exc.typeError then
          match g x with
          | Except.error e2 => Except.error e2
          | Except.ok v2 => Except.ok (AppResult.partApp v2)
        else Except.error e

/-- Reader.apply: g = something.run() extracts the other reader's wrapped
function, and the composed function closes over it (reader.py lines 66-87). -/
def Reader.apply {ε β γ : Type} (self : Reader ε (β → Res γ))
    (something : Reader ε β) : Reader ε (AppResult β γ) :=
  ⟨applyCompose self.fn something.fn⟩

/-- Result of Reader.run (reader.py lines 89-104): with no arguments,
__call__ returns the wrapped function itself; with an argument, it invokes
the wrapped function on it. -/
inductive RunResult (ε β : Type) where
  | fnResult : (ε → Res β) → RunResult ε β
  | value : Res β → RunResult ε β

/-- Reader.run (reader.py lines 89-100): run(*args) delegates to __call__,
which returns self.fn when called with no arguments and self.fn(arg)
otherwise.  The optional argument models *args being empty or not. -/
def Reader.run {ε β : Type} (self : Reader ε β) :
    Option ε → RunResult ε β
  | none => RunResult.fnResult self.fn
  | some e => RunResult.value (self.fn e)

/-- Reader.__eq__ (reader.py lines 102-108): probe both sides with the fixed
environment 42; any exception raised while probing makes the result False.
The probe being the integer literal 42 fixes the environment type to Int. -/
def readerEq {β : Type} [DecidableEq β] (self other : Reader Int β) : Bool :=
  match self.fn 42 with
  | Except.error _ => false
  | Except.ok a =>
    match other.fn 42 with
    | Except.error _ => false
    | Except.ok b => decide (a = b)

/-- MonadReader.ask (reader.py lines 128-135): Reader(lambda x: x). -/
def MonadReader.ask {ε : Type} : Reader ε ε :=
  ⟨fun x => Except.ok x⟩

/-- MonadReader.asks (reader.py lines 137-150):
cls.ask().bind(Reader(lambda e: cls.unit(func(e)))).  The binder is passed
wrapped in a Reader object; since calling a Reader object with one argument
just applies its wrapped function, the wrapper is transparent and the binder
acts as fun e => Reader.unit (func e). -/
def MonadReader.asks {ε α : Type} (func : ε → α) : Reader ε α :=
  Reader.bind MonadReader.ask (fun e => Reader.unit (func e))

/-- Reader.local on MonadReader (reader.py lines 152-157):
Reader(lambda e: self.run(func(e))); run with one argument applies the
wrapped function.  Named localEnv because local is a Lean keyword. -/
def Reader.localEnv {ε β : Type} (self : Reader ε β) (func : ε → ε) :
    Reader ε β :=
  ⟨fun e => self.fn (func e)⟩

/-- Modelled from the spec: the Unit no-value sentinel that state.py imports
from oslash's util module, which is not included under src/.  The spec calls
it "a sentinel no meaningful value marker" returned as the result of put; it
is modelled as a one-value type. -/
inductive PyUnit where
  | Unit
deriving DecidableEq, Repr

/-- The State monad: wraps a function from a state to a (result, newState)
pair (state.py, class State; the source stores the function in the attribute
named underscore-value, called fn in the spec's data model). -/
structure State (σ α : Type) where
  fn : σ → Res (α × σ)

/-- State.unit (state.py lines 26-35): State(lambda state: (value, state)). -/
def State.unit {σ α : Type} (value : α) : State σ α :=
  ⟨fun state => Except.ok (value, state)⟩

/-- State.map (state.py lines 37-41): run self, transform the result
component with the mapper, leave the state component untouched.  An
exception raised by self propagates. -/
def State.map {σ α β : Type} (self : State σ α) (mapper : α → β) :
    State σ β :=
  ⟨fun state =>
    match self.fn state with
    | Except.error e => Except.error e
    | Except.ok (a, s2) => Except.ok (mapper a, s2)⟩

/-- State.bind (state.py lines 43-51): run self to get (a, s2), then run
fn(a) on s2, returning its full pair.  An exception raised by self
propagates. -/
def State.bind {σ α β : Type} (self : State σ α) (fn : α → State σ β) :
    State σ β :=
  ⟨fun state =>
    match self.fn state with
    | Except.error e => Except.error e
    | Except.ok (a, s2) => (fn a).fn s2⟩

/-- State.get (state.py lines 53-56): State(lambda state: (state, state)). -/
def State.get {σ : Type} : State σ σ :=
  ⟨fun state => Except.ok (state, state)⟩

/-- State.put (state.py lines 58-61):
State(lambda state: (Unit, new_state)). -/
def State.put {σ : Type} (newState : σ) : State σ PyUnit :=
  ⟨fun _ => Except.ok (PyUnit.Unit, newState)⟩

/-- State.run (state.py lines 63-68): apply the wrapped function to the
given state. -/
def State.run {σ α : Type} (self : State σ α) (state : σ) : Res (α × σ) :=
  self.fn state

/-- State.__eq__ (state.py lines 73-80): probe both sides with the fixed
state 42 and compare the resulting pairs.  There is no try/except here: an
exception raised while probing either side propagates to the caller.  The
probe being the literal 42 fixes the state type to Int. -/
def stateEq {α : Type} [DecidableEq α] (self other : State Int α) :
    Res Bool :=
  match self.fn 42 with
  | Except.error e => Except.error e
  | Except.ok p =>
    match other.fn 42 with
    | Except.error e => Except.error e
    | Except.ok q => Except.ok (decide (p = q))

/-- Instrumented version of mapCompose that additionally counts how many
times the Python code evaluates self(x) (first count) and applies fn
(second count) during one call of the composed function.  The control flow
is exactly that of reader.py lines 49-54: self(x) is evaluated once inside
the try block, and once more inside the except branch when a TypeError was
caught. -/
def mapComposeT {ε β γ : Type} (selfFn : ε → Res β) (fn : β → Res γ)
    (x : ε) : Res (AppResult β γ) × Nat × Nat :=
  match selfFn x with
  | Except.error e =>
    if e = Exc.typeError then
      match selfFn x with
      | Except.error e2 => (Except.error e2, 2, 0)
      | Except.ok v => (Except.ok (AppResult.partApp v), 2, 0)
    else (Except.error e, 1, 0)
  | Except.ok v =>
    match fn v with
    | Except.ok w => (Except.ok (AppResult.value w), 1, 1)
    | Except.error e =>
      if e = Exc.typeError then
        match selfFn x with
        | Except.error e2 => (Except.error e2, 2, 1)
        | Except.ok v2 => (Except.ok (AppResult.partApp v2), 2, 1)
      else (Except.error e, 1, 1)

/-- Instrumented version of applyCompose that counts evaluations of self(x)
(first count) and of g(x) (second count) during one call of the composed
function (reader.py lines 79-86): self(x) is evaluated exactly once, outside
the try; g(x) is evaluated once inside the try and once more inside the
except branch when a TypeError was caught. -/
def applyComposeT {ε β γ : Type} (selfFn : ε → Res (β → Res γ))
    (g : ε → Res β) (x : ε) : Res (AppResult β γ) × Nat × Nat :=
  match selfFn x with
  | Except.error e => (Except.error e, 1, 0)
  | Except.ok f =>
    match g x with
    | Except.error e =>
      if e = Exc.typeError then
        match g x with
        | Except.error e2 => (Except.error e2, 1, 2)
        | Except.ok v => (Except.ok (AppResult.partApp v), 1, 2)
      else (Except.error e, 1, 1)
    | Except.ok v =>
      match f v with
      | Except.ok w => (Except.ok (AppResult.value w), 1, 1)
      | Except.error e =>
        if e = Exc.typeError then
          match g x with
          | Except.error e2 => (Except.error e2, 1, 2)
          | Except.ok v2 => (Except.ok (AppResult.partApp v2), 1, 2)
        else (Except.error e, 1, 1)

/-- Instrumented version of the function composed by Reader.bind
(reader.py line 64, lambda x: fn(self(x))(x)): counts evaluations of
self(x) (first count) and of the wrapped function of the Reader returned by
the binder (second count). -/
def bindComposeT {ε α β : Type} (selfFn : ε → Res α) (fn : α → Reader ε β)
    (x : ε) : Res β × Nat × Nat :=
  match selfFn x with
  | Except.error e => (Except.error e, 1, 0)
  | Except.ok v => ((fn v).fn x, 1, 1)

/-- Instrumented version of the function composed by local
(reader.py line 157, lambda e: self.run(func(e))): counts evaluations of
self's wrapped function, which is applied exactly once. -/
def localComposeT {ε β : Type} (self : Reader ε β) (func : ε → ε)
    (x : ε) : Res β × Nat :=
  (self.fn (func x), 1)

/-- Concrete wrapped value for C4: lambda x: x + 1, which never raises on
integers. -/
def c4AddOne : Int → Res Int :=
  fun x => Except.ok (x + 1)

/-- Concrete mapper for C4: lambda f: f(10). -/
def c4Apply10 : (Int → Res Int) → Res Int :=
  fun f => f 10

/-- Concrete Reader for C4: Reader.pure(lambda x: x + 1).map(lambda f: f(10)). -/
def c4Reader : Reader Int (AppResult (Int → Res Int) Int) :=
  (Reader.pure c4AddOne : Reader Int (Int → Res Int)).map c4Apply10

/-- Concrete State for C2's counterexample: a State whose wrapped function
raises a non-TypeError exception on every input, in particular on the probe
state 42. -/
def c2BadState : State Int Int :=
  ⟨fun _ => Except.error Exc.otherError⟩

/-- Concrete inner Reader for C1's witness and C3's counterexample:
Reader.unit(5). -/
def c1Inner : Reader Int Int :=
  Reader.unit 5

/-- Concrete mapper for C1's witness and C3's counterexample: a function of
two arguments applied to one, i.e. every application raises TypeError. -/
def c1Mapper : Int → Res Int :=
  fun _ => Except.error Exc.typeError

/-- Concrete function-valued Reader for C1's witness on apply. -/
def c1FnReader : Reader Int (Int → Res Int) :=
  Reader.unit c1Mapper

/-- Concrete argument Reader for C1's witness on apply: Reader.unit(7). -/
def c1ArgReader : Reader Int Int :=
  Reader.unit 7

/-- Concrete State for C7: State(lambda s: (1, s + 1)). -/
def c7m : State Int Int :=
  ⟨fun s => Except.ok (1, s + 1)⟩

/-- Concrete binder for C7: lambda a: State(lambda s: (a + 1, s * 2)). -/
def c7f : Int → State Int Int :=
  fun a => ⟨fun s => Except.ok (a + 1, s * 2)⟩

/-- Concrete Reader for C10: a Reader whose wrapped function raises on every
input, in particular on the probe environment 42. -/
def c10Bad : Reader Int Int :=
  ⟨fun _ => Except.error Exc.otherError⟩

/-- Concrete Reader for C2's witness: a Reader whose wrapped function raises
a non-TypeError exception on every input. -/
def c2BadReader : Reader Int Int :=
  ⟨fun _ => Except.error Exc.otherError⟩

/-- Claim C5: run() with no arguments returns the wrapped function itself
unchanged, and run(e) returns the result of applying the wrapped function
to e. -/
theorem c5_run_behaviour {ε β : Type} (r : Reader ε β) (e : ε) :
    r.run none = RunResult.fnResult r.fn ∧
      r.run (some e) = RunResult.value (r.fn e) :=
  ⟨rfl, rfl⟩

/-- Witness for C5 at the Reader unit 3 and environment 0. -/
theorem c5_run_behaviour_witness :
    (Reader.unit 3 : Reader Int Int).run none =
        RunResult.fnResult (Reader.unit 3 : Reader Int Int).fn ∧
      (Reader.unit 3 : Reader Int Int).run (some 0) =
        RunResult.value ((Reader.unit 3 : Reader Int Int).fn 0) :=
  c5_run_behaviour (Reader.unit 3) 0

/-- Claim C4, counterexample: Reader.pure(lambda x: x + 1).map(lambda f:
f(10)).run(), with run called with no arguments, does NOT evaluate to 11; it
returns the composed wrapped function itself, and in Python a function
compared with 11 is unequal. -/
theorem c4_counterexample :
    c4Reader.run none ≠ RunResult.value (Except.ok (AppResult.value 11)) := by
  simp [Reader.run]

/-- Claim C4, amended: run must be given an environment; for every
environment e, Reader.pure(lambda x: x + 1).map(lambda f: f(10)).run(e)
evaluates to 11, while run() with no arguments returns the composed wrapped
function itself. -/
theorem c4_amended (e : Int) :
    c4Reader.run (some e) = RunResult.value (Except.ok (AppResult.value 11)) ∧
      c4Reader.run none = RunResult.fnResult c4Reader.fn :=
  ⟨rfl, rfl⟩

/-- Witness for the amended C4 at environment 0. -/
theorem c4_amended_witness :
    c4Reader.run (some 0) =
        RunResult.value (Except.ok (AppResult.value 11)) ∧
      c4Reader.run none = RunResult.fnResult c4Reader.fn :=
  c4_amended 0

/-- Claim C8: for every initial state s0, State.get().bind(lambda s:
State.put(s)).run(s0) yields the no-value sentinel together with a final
state equal to the initial state. -/
theorem c8_get_put_round_trip {σ : Type} (s0 : σ) :
    (State.get.bind (fun s => State.put s)).run s0 =
      Except.ok (PyUnit.Unit, s0) :=
  rfl

/-- Witness for C8 at the initial state 5. -/
theorem c8_get_put_round_trip_witness :
    (State.get.bind (fun s => State.put s)).run (5 : Int) =
      Except.ok (PyUnit.Unit, (5 : Int)) :=
  c8_get_put_round_trip 5

/-- Claim C9: for every environment e0 and function f,
MonadReader.ask().run(e0) is e0 and MonadReader.asks(f).run(e0) is f(e0). -/
theorem c9_ask_asks {ε α : Type} (e0 : ε) (f : ε → α) :
    (MonadReader.ask : Reader ε ε).run (some e0) =
        RunResult.value (Except.ok e0) ∧
      (MonadReader.asks f).run (some e0) =
        RunResult.value (Except.ok (f e0)) :=
  ⟨rfl, rfl⟩

/-- Witness for C9 at environment 4 and the successor function. -/
theorem c9_ask_asks_witness :
    (MonadReader.ask : Reader Int Int).run (some 4) =
        RunResult.value (Except.ok (4 : Int)) ∧
      (MonadReader.asks (fun n : Int => n + 1)).run (some 4) =
        RunResult.value (Except.ok (5 : Int)) :=
  c9_ask_asks 4 (fun n : Int => n + 1)

/-- Claim C10: Reader equality is not reflexive: any Reader whose wrapped
function raises an exception on the probe environment 42 compares unequal
to itself, because readerEq maps every probe exception to False. -/
theorem c10_eq_not_reflexive (m : Reader Int Int) (e : Exc)
    (h : m.fn 42 = Except.error e) : readerEq m m = false := by
  simp [readerEq, h]

/-- Witness for C10 at a Reader raising a non-TypeError exception. -/
theorem c10_eq_not_reflexive_witness : readerEq c10Bad c10Bad = false :=
  c10_eq_not_reflexive c10Bad Exc.otherError rfl

/-- Claim C7: State bind threading: if m.run(s) yields (a, s2) then
m.bind(f).run(s) equals f(a).run(s2); and concretely
State(lambda s: (1, s + 1)).bind(lambda a: State(lambda s: (a + 1,
s * 2))).run(5) yields (2, 12). -/
theorem c7_state_bind_threading {σ α β : Type} (m : State σ α)
    (f : α → State σ β) (s : σ) (a : α) (s2 : σ)
    (h : m.run s = Except.ok (a, s2)) :
    (m.bind f).run s = (f a).run s2 ∧
      (c7m.bind c7f).run 5 = Except.ok (2, 12) := by
  constructor
  · simp only [State.run] at h
    simp [State.run, State.bind, h]
  · rfl

/-- Witness for C7: the general threading equation applied to the concrete
computation at state 5, whose first step yields (1, 6). -/
theorem c7_state_bind_threading_witness :
    (c7m.bind c7f).run 5 = (c7f 1).run 6 ∧
      (c7m.bind c7f).run 5 = Except.ok (2, 12) :=
  c7_state_bind_threading c7m c7f 5 1 6 rfl

/-- Claim C6: bind is associative up to running on a common input, for both
Reader (probe environment e0) and State (probe state s0). -/
theorem c6_bind_associativity {ε α β γ σ α2 β2 γ2 : Type}
    (m : Reader ε α) (f : α → Reader ε β) (g : β → Reader ε γ) (e0 : ε)
    (ms : State σ α2) (fs : α2 → State σ β2) (gs : β2 → State σ γ2)
    (s0 : σ) :
    ((m.bind f).bind g).run (some e0) =
        (m.bind (fun x => (f x).bind g)).run (some e0) ∧
      ((ms.bind fs).bind gs).run s0 =
        (ms.bind (fun x => (fs x).bind gs)).run s0 := by
  constructor
  · simp only [Reader.run, Reader.bind]
    cases m.fn e0 <;> rfl
  · simp only [State.run, State.bind]
    cases hp : ms.fn s0 with
    | error e => rfl
    | ok p =>
      obtain ⟨a, s2⟩ := p
      rfl

/-- Witness for C6 on concrete Reader and State computations. -/
theorem c6_bind_associativity_witness :
    ((c1Inner.bind (fun v => Reader.unit v)).bind
          (fun v => Reader.unit v)).run (some 0) =
        (c1Inner.bind
          (fun x => (Reader.unit x).bind (fun v => Reader.unit v))).run
          (some 0) ∧
      ((c7m.bind c7f).bind c7f).run 5 =
        (c7m.bind (fun x => (c7f x).bind c7f)).run 5 :=
  c6_bind_associativity c1Inner (fun v => Reader.unit v)
    (fun v => Reader.unit v) 0 c7m c7f c7f 5

/-- Claim C2, counterexample: State.__eq__ does not convert probe exceptions
into False; probing a State whose wrapped function raises on the probe state
42 makes == propagate the exception instead of returning False. -/
theorem c2_counterexample :
    stateEq c2BadState c2BadState = Except.error Exc.otherError ∧
      stateEq c2BadState c2BadState ≠ Except.ok false := by
  refine ⟨rfl, ?_⟩
  intro h
  rw [show stateEq c2BadState c2BadState = Except.error Exc.otherError
    from rfl] at h
  exact Except.noConfusion h

/-- Claim C2, amended: both __eq__ methods probe the two sides with the
fixed value 42; Reader.__eq__ turns any exception raised while probing
either side into False, but State.__eq__ has no exception handling, so an
exception raised while probing either side propagates to the caller. -/
theorem c2_amended {β α : Type} [DecidableEq β] [DecidableEq α]
    (a b : Reader Int β) (m n : State Int α) (e : Exc) :
    (a.fn 42 = Except.error e → readerEq a b = false) ∧
      (b.fn 42 = Except.error e → readerEq a b = false) ∧
      (∀ u v, a.fn 42 = Except.ok u → b.fn 42 = Except.ok v →
        readerEq a b = decide (u = v)) ∧
      (m.fn 42 = Except.error e → stateEq m n = Except.error e) ∧
      (∀ p, m.fn 42 = Except.ok p → n.fn 42 = Except.error e →
        stateEq m n = Except.error e) ∧
      (∀ p q, m.fn 42 = Except.ok p → n.fn 42 = Except.ok q →
        stateEq m n = Except.ok (decide (p = q))) := by
  refine ⟨fun h => by simp [readerEq, h], fun h => ?_,
    fun u v h1 h2 => by simp [readerEq, h1, h2],
    fun h => by simp [stateEq, h],
    fun p h1 h2 => by simp [stateEq, h1, h2],
    fun p q h1 h2 => by simp [stateEq, h1, h2]⟩
  cases h1 : a.fn 42 with
  | error e2 => simp [readerEq, h1]
  | ok u => simp [readerEq, h1, h]

/-- Witness for the amended C2: a raising Reader compares False, a raising
State propagates the exception. -/
theorem c2_amended_witness :
    readerEq c2BadReader c2BadReader = false ∧
      stateEq c2BadState c2BadState = Except.error Exc.otherError :=
  ⟨(c2_amended c2BadReader c2BadReader c2BadState c2BadState
      Exc.otherError).1 rfl,
    (c2_amended c2BadReader c2BadReader c2BadState c2BadState
      Exc.otherError).2.2.2.1 rfl⟩

/-- If self(x) raises, the function composed by map re-raises the same
exception: a TypeError from the inner computation enters the except branch
but the second evaluation of self(x) raises it again, and any other
exception is not caught at all. -/
theorem mapCompose_error_left {ε β γ : Type} (selfFn : ε → Res β)
    (fn : β → Res γ) (x : ε) (e : Exc) (h : selfFn x = Except.error e) :
    mapCompose selfFn fn x = Except.error e := by
  by_cases he : e = Exc.typeError
  · subst he
    simp [mapCompose, h]
  · simp [mapCompose, h, he]

/-- If self(x) succeeds and applying fn raises a non-TypeError exception,
the function composed by map re-raises it. -/
theorem mapCompose_error_fn {ε β γ : Type} (selfFn : ε → Res β)
    (fn : β → Res γ) (x : ε) (v : β) (e : Exc)
    (h1 : selfFn x = Except.ok v) (h2 : fn v = Except.error e)
    (hne : e ≠ Exc.typeError) :
    mapCompose selfFn fn x = Except.error e := by
  simp [mapCompose, h1, h2, hne]

/-- The function composed by map produces the currying fallback exactly when
the inner computation succeeds and applying fn to its result raises a
TypeError. -/
theorem mapCompose_partApp_iff {ε β γ : Type} (selfFn : ε → Res β)
    (fn : β → Res γ) (x : ε) (v : β) :
    mapCompose selfFn fn x = Except.ok (AppResult.partApp v) ↔
      selfFn x = Except.ok v ∧ fn v = Except.error Exc.typeError := by
  constructor
  · intro h
    cases h1 : selfFn x with
    | error e =>
      rw [mapCompose_error_left selfFn fn x e h1] at h
      exact Except.noConfusion h
    | ok v0 =>
      cases h2 : fn v0 with
      | ok w => simp [mapCompose, h1, h2] at h
      | error e =>
        by_cases he : e = Exc.typeError
        · subst he
          simp [mapCompose, h1, h2] at h
          subst h
          exact ⟨rfl, h2⟩
        · rw [mapCompose_error_fn selfFn fn x v0 e h1 h2 he] at h
          exact Except.noConfusion h
  · rintro ⟨h1, h2⟩
    simp [mapCompose, h1, h2]

/-- If self(x) raises, the function composed by apply re-raises the same
exception: f = self(x) is evaluated outside the try block. -/
theorem applyCompose_error_self {ε β γ : Type}
    (selfFn : ε → Res (β → Res γ)) (g : ε → Res β) (x : ε) (e : Exc)
    (h : selfFn x = Except.error e) :
    applyCompose selfFn g x = Except.error e := by
  simp [applyCompose, h]

/-- If self(x) succeeds and g(x) raises, the function composed by apply
re-raises the same exception: a TypeError from g enters the except branch
but the second evaluation of g(x) raises it again, and any other exception
is not caught. -/
theorem applyCompose_error_other {ε β γ : Type}
    (selfFn : ε → Res (β → Res γ)) (g : ε → Res β) (x : ε)
    (f0 : β → Res γ) (e : Exc) (h1 : selfFn x = Except.ok f0)
    (h2 : g x = Except.error e) :
    applyCompose selfFn g x = Except.error e := by
  by_cases he : e = Exc.typeError
  · subst he
    simp [applyCompose, h1, h2]
  · simp [applyCompose, h1, h2, he]

/-- The function composed by apply produces the currying fallback exactly
when both computations succeed and applying the extracted function raises a
TypeError. -/
theorem applyCompose_partApp_iff {ε β γ : Type}
    (selfFn : ε → Res (β → Res γ)) (g : ε → Res β) (x : ε) (v : β) :
    applyCompose selfFn g x = Except.ok (AppResult.partApp v) ↔
      ∃ f0, selfFn x = Except.ok f0 ∧ g x = Except.ok v ∧
        f0 v = Except.error Exc.typeError := by
  constructor
  · intro h
    cases h1 : selfFn x with
    | error e =>
      rw [applyCompose_error_self selfFn g x e h1] at h
      exact Except.noConfusion h
    | ok f0 =>
      cases h2 : g x with
      | error e =>
        rw [applyCompose_error_other selfFn g x f0 e h1 h2] at h
        exact Except.noConfusion h
      | ok v0 =>
        cases h3 : f0 v0 with
        | ok w => simp [applyCompose, h1, h2, h3] at h
        | error e =>
          by_cases he : e = Exc.typeError
          · subst he
            simp [applyCompose, h1, h2, h3] at h
            subst h
            exact ⟨f0, rfl, rfl, h3⟩
          · simp [applyCompose, h1, h2, h3, he] at h
  · rintro ⟨f0, h1, h2, h3⟩
    simp [applyCompose, h1, h2, h3]

/-- Claim C1: the currying fallback of map and apply yields a partially
applied function exactly when applying the (extracted) function to the
intermediate result raises a TypeError; a TypeError raised inside the inner
computation of map, inside self of apply, or inside other of apply is
propagated unchanged and never converted into a partially applied
function. -/
theorem c1_fallback_scoping {ε β γ : Type} (r : Reader ε β)
    (f : β → Res γ) (rA : Reader ε (β → Res γ)) (other : Reader ε β)
    (x : ε) :
    (∀ v, (r.map f).fn x = Except.ok (AppResult.partApp v) ↔
      r.fn x = Except.ok v ∧ f v = Except.error Exc.typeError) ∧
      (∀ e, r.fn x = Except.error e → (r.map f).fn x = Except.error e) ∧
      (∀ v e, r.fn x = Except.ok v → f v = Except.error e →
        e ≠ Exc.typeError → (r.map f).fn x = Except.error e) ∧
      (∀ v, (rA.apply other).fn x = Except.ok (AppResult.partApp v) ↔
        ∃ f0, rA.fn x = Except.ok f0 ∧ other.fn x = Except.ok v ∧
          f0 v = Except.error Exc.typeError) ∧
      (∀ e, rA.fn x = Except.error e →
        (rA.apply other).fn x = Except.error e) ∧
      (∀ f0 e, rA.fn x = Except.ok f0 → other.fn x = Except.error e →
        (rA.apply other).fn x = Except.error e) :=
  ⟨fun v => mapCompose_partApp_iff r.fn f x v,
    fun e h => mapCompose_error_left r.fn f x e h,
    fun v e h1 h2 hne => mapCompose_error_fn r.fn f x v e h1 h2 hne,
    fun v => applyCompose_partApp_iff rA.fn other.fn x v,
    fun e h => applyCompose_error_self rA.fn other.fn x e h,
    fun f0 e h1 h2 => applyCompose_error_other rA.fn other.fn x f0 e h1 h2⟩

/-- Witness for C1: a fallback produced by map over Reader.unit(5) with an
always-TypeError mapper, and by apply over a unit-wrapped always-TypeError
function and Reader.unit(7). -/
theorem c1_fallback_scoping_witness :
    (c1Inner.map c1Mapper).fn 0 = Except.ok (AppResult.partApp 5) ∧
      (c1FnReader.apply c1ArgReader).fn 0 =
        Except.ok (AppResult.partApp 7) :=
  ⟨((c1_fallback_scoping c1Inner c1Mapper c1FnReader c1ArgReader 0).1
      5).mpr ⟨rfl, rfl⟩,
    ((c1_fallback_scoping c1Inner c1Mapper c1FnReader c1ArgReader
      0).2.2.2.1 7).mpr ⟨c1Mapper, rfl, rfl, rfl⟩⟩

/-- Claim C3, counterexample: one call of the function composed by
Reader.unit(5).map(two-argument function) evaluates the inner wrapped
function twice, not at most once: once inside the try block and once more
while building the partial application in the except branch. -/
theorem c3_counterexample :
    (mapComposeT c1Inner.fn c1Mapper 0).2.1 = 2 :=
  rfl

/-- Claim C3, amended: a single run call invokes each underlying wrapped
function at most once, except on the TypeError fallback path of map and
apply, where the inner computation of map, respectively the other
computation of apply, is evaluated a second time while building the partial
application; so the bound is two there, and the second evaluation happens
only when a TypeError was raised in the try block.  bind and local invoke
each underlying wrapped function at most once. -/
theorem c3_amended {ε α β γ : Type} (selfFn : ε → Res β) (f : β → Res γ)
    (sA : ε → Res (β → Res γ)) (g : ε → Res β) (sB : ε → Res α)
    (k : α → Reader ε β) (r : Reader ε β) (modify : ε → ε) (x : ε) :
    ((mapComposeT selfFn f x).2.1 ≤ 2 ∧ (mapComposeT selfFn f x).2.2 ≤ 1 ∧
      ((mapComposeT selfFn f x).2.1 = 2 →
        selfFn x = Except.error Exc.typeError ∨
          ∃ v, selfFn x = Except.ok v ∧ f v = Except.error Exc.typeError)) ∧
      ((applyComposeT sA g x).2.1 = 1 ∧ (applyComposeT sA g x).2.2 ≤ 2 ∧
        ((applyComposeT sA g x).2.2 = 2 →
          ∃ f0, sA x = Except.ok f0 ∧
            (g x = Except.error Exc.typeError ∨
              ∃ v, g x = Except.ok v ∧
                f0 v = Except.error Exc.typeError))) ∧
      ((bindComposeT sB k x).2.1 = 1 ∧ (bindComposeT sB k x).2.2 ≤ 1) ∧
      (localComposeT r modify x).2 = 1 := by
  refine ⟨?_, ?_, ?_, rfl⟩
  · cases h1 : selfFn x with
    | error e =>
      by_cases he : e = Exc.typeError
      · subst he
        simp [mapComposeT, h1]
      · simp [mapComposeT, h1, he]
    | ok v =>
      cases h2 : f v with
      | ok w => simp [mapComposeT, h1, h2]
      | error e =>
        by_cases he : e = Exc.typeError
        · subst he
          simp [mapComposeT, h1, h2]
        · simp [mapComposeT, h1, h2, he]
  · cases h1 : sA x with
    | error e => simp [applyComposeT, h1]
    | ok f0 =>
      cases h2 : g x with
      | error e =>
        by_cases he : e = Exc.typeError
        · subst he
          simp [applyComposeT, h1, h2]
        · simp [applyComposeT, h1, h2, he]
      | ok v =>
        cases h3 : f0 v with
        | ok w => simp [applyComposeT, h1, h2, h3]
        | error e =>
          by_cases he : e = Exc.typeError
          · subst he
            simp [applyComposeT, h1, h2, h3]
          · simp [applyComposeT, h1, h2, h3, he]
  · cases h1 : sB x with
    | error e => simp [bindComposeT, h1]
    | ok v => simp [bindComposeT, h1]

/-- Witness for the amended C3 on concrete computations: the fallback path
of map stays within the bound of two, and bind evaluates the inner wrapped
function exactly once. -/
theorem c3_amended_witness :
    (mapComposeT c1Inner.fn c1Mapper 0).2.1 ≤ 2 ∧
      (bindComposeT c1Inner.fn (fun _ => c1ArgReader) 0).2.1 = 1 :=
  ⟨(c3_amended c1Inner.fn c1Mapper c1FnReader.fn c1ArgReader.fn c1Inner.fn
      (fun _ => c1ArgReader) c1Inner id 0).1.1,
    (c3_amended c1Inner.fn c1Mapper c1FnReader.fn c1ArgReader.fn c1Inner.fn
      (fun _ => c1ArgReader) c1Inner id 0).2.2.1.1⟩
